import Mathlib

/-!
Shallow embedding of `simple_shopping_list_bot` (src/src/main.rs, src/src/data.rs).

The program is a Telegram shopping-list bot.  Its persistent document (`Data`)
holds the shopping items, the captured recipes, the handle of the single
"active" display message and the in-progress recipe draft.  Event handlers
(`handle_message` for text events, `handle_callback_query` for button events)
mutate the document under a global lock; after each successfully handled event
the dispatcher loop stores the document to disk.  Both handlers are wrapped in
`.expect(...)` by `run`, so a handler error or panic terminates the event loop.

Modelling conventions:
  * Rust `Vec`s become `List`s, `String`s become `String`s, machine integers
    carrying chat/message ids become `Int` (no arithmetic is done on them).
  * The binary `main.rs` is the authoritative source: it declares its own
    `Data` with `recipes : Vec<(String, Vec<String>)>` (not the `HashMap` of
    the unused `data.rs` module).
  * Telegram transport calls (`edit_message_text`, `send_message`,
    `delete_message`) are external.  `replace_active_message` is modelled
    faithfully over oracle outcomes of the edit and send calls
    (`EditOutcome`, `SendOutcome`).  The document-level event handlers are
    modelled on the transport-success path; the text passed to
    `replace_active_message` is recorded as an `Option String` so "no view
    update happened" is observable.
  * A handler outcome of `none` models a panic (`unwrap` on `None`) or an
    error propagated by `?`: in both cases `run`'s `.expect` turns it into a
    panic, `store_data()` is not reached, and the event loop terminates.
  * `usize::from_str` (for the `toggle` index), `str::split_whitespace` and
    `str::starts_with` are modelled as executable functions over the string's
    character list (`parse_usize`, `split_whitespace`, `starts_with_hash`);
    `serde_json::from_str` (external crate) is abstracted as an oracle
    `Option Data` parse result in `load_data`.
-/

/-- The persisted document (struct `Data` in src/src/main.rs, lines 16-22). -/
structure Data where
  items : List (String × Bool)
  recipes : List (String × List String)
  active_message : Option (Int × Int)
  current_recipe : Option (Option String × List String)
deriving DecidableEq, Repr

/-- `impl Default for Data` (src/src/main.rs, lines 24-33). -/
def Data.mkDefault : Data :=
  { items := [], recipes := [], active_message := none, current_recipe := none }

/-- `Data::get_shopping_list_message_text` (src/src/main.rs, lines 36-47):
`format!("Einkaufsliste:\n{}", items.iter().fold(String::new(), |a,(b,_)| format!("{}\n - {}", a, b)))`. -/
def Data.get_shopping_list_message_text (d : Data) : String :=
  "Einkaufsliste:\n" ++ d.items.foldl (fun a p => a ++ "\n - " ++ p.1) ""

/-- `Data::get_recipe_text` (src/src/main.rs, lines 49-60). -/
def Data.get_recipe_text (d : Data) : String :=
  match d.current_recipe with
  | some (some name, ingredients) =>
      name ++ ":" ++ ingredients.foldl (fun a b => a ++ "\n - " ++ b) ""
  | _ => ""

/-- `Data::handle_new_item` (src/src/main.rs, lines 141-156): collect the
ingredients of every recipe whose name equals `text`; if that collection is
empty push `(text, false)`, otherwise push each collected ingredient unchecked.
Then `update_shopping_list` displays the new shopping-list text (recorded here
as the second component). -/
def Data.handle_new_item (d : Data) (text : String) : Data × Option String :=
  let items := (d.recipes.filter (fun p => p.1 == text)).flatMap (fun p => p.2)
  let d' :=
    if items.isEmpty then
      { d with items := d.items ++ [(text, false)] }
    else
      { d with items := d.items ++ items.map (fun item => (item, false)) }
  (d', some d'.get_shopping_list_message_text)

/-- The mutation of the `toggle` branch (src/src/main.rs, lines 297-299):
`items[i].1 = !items[i].1` for an in-range index; out-of-range indices are
handled by the dispatcher (panic), not here. -/
def toggle_item : List (String × Bool) → Nat → List (String × Bool)
  | [], _ => []
  | x :: xs, 0 => (x.1, !x.2) :: xs
  | x :: xs, i + 1 => x :: toggle_item xs i

/-- The index collection of the `remove_done` branch (src/src/main.rs, lines
304-309): `items.iter().enumerate().rev().filter(|(_, (_, gotten))| *gotten).map(|(i, _)| i).collect()`. -/
def to_remove (items : List (String × Bool)) : List Nat :=
  ((items.enum.reverse).filter (fun p => p.2.2)).map Prod.fst

/-- The removal loop of the `remove_done` branch (src/src/main.rs, lines
310-313): `for i in to_remove { items.remove(i) }`. -/
def remove_done (items : List (String × Bool)) : List (String × Bool) :=
  (to_remove items).foldl (fun acc i => acc.eraseIdx i) items

/-- Helper for `split_whitespace`: walk the character list, accumulating the
current (reversed) word; whitespace finishes a word, empty fragments are
dropped. -/
def split_ws_aux (acc : List Char) : List Char → List String
  | [] => if acc.isEmpty then [] else [String.mk acc.reverse]
  | c :: cs =>
    if c.isWhitespace then
      if acc.isEmpty then split_ws_aux [] cs
      else String.mk acc.reverse :: split_ws_aux [] cs
    else split_ws_aux (c :: acc) cs

/-- `str::split_whitespace` as used on callback data (src/src/main.rs, line
273): the maximal whitespace-free fragments, in order, empty fragments
dropped. -/
def split_whitespace (s : String) : List String := split_ws_aux [] s.data

/-- `usize::from_str` as used by the `toggle` branch (src/src/main.rs, line
298): a non-empty all-digit string parses to its decimal value, anything else
is a parse error. -/
def parse_usize (s : String) : Option Nat :=
  if s.data.isEmpty then none
  else if s.data.all Char.isDigit then
    some (s.data.foldl (fun n c => n * 10 + (c.toNat - 48)) 0)
  else none

/-- `str::starts_with("#")` as used by `handle_message` (src/src/main.rs,
line 254). -/
def starts_with_hash (s : String) : Bool :=
  match s.data with
  | '#' :: _ => true
  | _ => false

/-- The dispatch `match` of `handle_callback_query` (src/src/main.rs, lines
272-330), over the token list produced by `split_whitespace`.  Result:
`some (d', view)` when the handler runs to completion (transport-success
path), where `view` is the text passed to `replace_active_message` (`none`
for the unknown-tag branch, which only prints); `none` when the handler
panics or propagates an error (`toggle` branch: `split.next().unwrap()`,
`parse::<usize>()?`, `items.get_mut(i).unwrap()`), which `run`'s `.expect`
turns into a fatal panic. -/
def handle_callback_tokens (d : Data) : List String → Option (Data × Option String)
  | "start_recipe" :: _ =>
      let d' := { d with current_recipe := some (none, []) }
      some (d', some "Neues Rezept:")
  | "start_remove" :: _ =>
      some (d, some "Einkaufsliste:")
  | "recipe_done" :: _ =>
      let d' :=
        match d.current_recipe with
        | some (some name, ingredients) =>
            { d with recipes := d.recipes ++ [(name, ingredients)] }
        | _ => d
      some ({ d' with current_recipe := none }, some "👍")
  | "toggle" :: rest =>
      match rest with
      | [] => none
      | t :: _ =>
        match parse_usize t with
        | none => none
        | some i =>
          if i < d.items.length then
            some ({ d with items := toggle_item d.items i }, some "Einkaufsliste:")
          else
            none
  | "remove_done" :: _ =>
      let d' := { d with items := remove_done d.items }
      some (d', some d'.get_shopping_list_message_text)
  | "list_recipes" :: _ =>
      some (d, some "Click the recipe to add:")
  | "add" :: rest =>
      let name := rest.foldl (fun a b => a ++ " " ++ b) ""
      some (d.handle_new_item name)
  | _ => some (d, none)

/-- `handle_callback_query` (src/src/main.rs, lines 267-333) for an event that
carries callback data. -/
def handle_callback_query (d : Data) (data : String) : Option (Data × Option String) :=
  handle_callback_tokens d (split_whitespace data)

/-- One iteration of the callback event loop (src/src/main.rs, lines 195-200):
`handle_callback_query(ctx).await.expect(...); store_data().await`.  The
`Bool` records that `store_data` ran; `none` means the `.expect` panicked, so
no store happened and the loop terminated. -/
def callback_event_step (d : Data) (data : String) : Option (Data × Bool) :=
  match handle_callback_query d data with
  | some (d', _) => some (d', true)
  | none => none

/-- `handle_message` (src/src/main.rs, lines 233-264) for a common text
message, on the transport-success path.  Components: the new document, the
text passed to `replace_active_message` (`none` if it was not called), and
whether `ctx.delete_message()` was reached (the comment branch returns early,
skipping it). -/
def handle_message (d : Data) (text : String) : Data × Option String × Bool :=
  match d.current_recipe with
  | some (name, ingredients) =>
    let d' :=
      match name with
      | none => { d with current_recipe := some (some text, ingredients) }
      | some n => { d with current_recipe := some (some n, ingredients ++ [text]) }
    (d', some d'.get_recipe_text, true)
  | none =>
    if starts_with_hash text then
      (d, none, false)
    else
      let r := d.handle_new_item text
      (r.1, r.2, true)

/-- One iteration of the message event loop (src/src/main.rs, lines 201-206):
`handle_message(ctx).await.expect(...); store_data().await`.  The `Bool`
records that `store_data` ran — it runs after every successfully handled
message event, comment no-ops included. -/
def message_event_step (d : Data) (text : String) : Data × Bool :=
  ((handle_message d text).1, true)

/-- Outcome oracle for `ctx.bot.edit_message_text(...).send()` (the possible
`match` arms at src/src/main.rs, lines 119-129). -/
inductive EditOutcome where
  | edited (chat : Int) (msg : Int)
  | notModified
  | failed
deriving DecidableEq

/-- Outcome oracle for `ctx.bot.send_message(...).send()` (src/src/main.rs,
lines 131-135). -/
inductive SendOutcome where
  | sent (chat : Int) (msg : Int)
  | failed
deriving DecidableEq

/-- Result of `replace_active_message`: the new `active_message` field and
whether a fresh message was sent (as opposed to editing in place). -/
structure ReplaceResult where
  active_message : Option (Int × Int)
  sent_new : Bool
deriving DecidableEq

/-- The send-new-message tail of `replace_active_message` (src/src/main.rs,
lines 131-138): on success set `active_message` to the new message's
identifier; a send failure propagates via `?`. -/
def send_new_message (send : SendOutcome) : Except Unit ReplaceResult :=
  match send with
  | .sent chat msg => .ok ⟨some (chat, msg), true⟩
  | .failed => .error ()

/-- `Data::replace_active_message` (src/src/main.rs, lines 109-139) over the
two transport oracles.  With an active message: a successful edit updates
`active_message` to the returned identifier; a `MessageNotModified` error is
logged and returned as `Ok` with `active_message` untouched; any other edit
error is logged and falls through to sending a new message.  Without an
active message the send path runs directly. -/
def replace_active_message (active : Option (Int × Int)) (edit : EditOutcome)
    (send : SendOutcome) : Except Unit ReplaceResult :=
  match active with
  | some _ =>
    match edit with
    | .edited chat msg => .ok ⟨some (chat, msg), false⟩
    | .notModified => .ok ⟨active, false⟩
    | .failed => send_new_message send
  | none => send_new_message send

/-- The startup load (src/src/main.rs, lines 167-184; same shape as
`load_data` in src/src/data.rs, lines 34-51).  The argument abstracts the
file-system and serde effects: `none` = `OpenOptions::open` failed (file
missing/unreadable); `some none` = the file opened but
`serde_json::from_str` failed; `some (some d)` = the file parsed as `d`.
Result: the document the process starts with, or `none` when startup panics
(`.unwrap()` on the parse error). -/
def load_data (file : Option (Option Data)) : Option Data :=
  match file with
  | none => some Data.mkDefault
  | some parsed =>
    match parsed with
    | some read_data => some read_data
    | none => none

/-! ## Helper lemmas -/

/-- Unfolding `to_remove` over a cons cell: the reversed enumeration puts the
head's index (0) last, and every index coming from the tail is shifted up by
one. -/
theorem to_remove_cons (x : String × Bool) (xs : List (String × Bool)) :
    to_remove (x :: xs) = (to_remove xs).map (· + 1) ++ (if x.2 then [0] else []) := by
  unfold to_remove
  rw [List.enum_cons', List.reverse_cons, ← List.map_reverse, List.filter_append,
    List.filter_map, List.map_append, List.map_map]
  congr 1
  · rw [List.map_map]
    apply List.map_congr_left
    intro a _
    rfl
  · cases hx : x.2 <;> simp [List.filter_cons, hx]

/-- Sequentially erasing a descending batch of shifted indices leaves the head
untouched and acts on the tail. -/
theorem foldl_eraseIdx_shift (x : String × Bool) (is : List Nat) :
    ∀ l : List (String × Bool),
      (is.map (· + 1)).foldl (fun acc i => acc.eraseIdx i) (x :: l) =
        x :: is.foldl (fun acc i => acc.eraseIdx i) l := by
  induction is with
  | nil => intro l; rfl
  | cons i is ih =>
    intro l
    simp only [List.map_cons, List.foldl_cons, List.eraseIdx_cons_succ]
    exact ih (l.eraseIdx i)

/-- The removal loop of the `remove_done` branch keeps exactly the unchecked
items, in their original relative order. -/
theorem remove_done_eq_filter : ∀ items : List (String × Bool),
    remove_done items = items.filter (fun p => !p.2)
  | [] => rfl
  | x :: xs => by
    have ih := remove_done_eq_filter xs
    rw [remove_done, to_remove_cons, List.foldl_append, foldl_eraseIdx_shift]
    rw [remove_done] at ih
    rw [ih]
    cases hx : x.2 <;> simp [List.filter_cons, hx]

/-- The collected removal indices are strictly decreasing (the code iterates
the enumeration in reverse), so the deletions are applied high-index-first. -/
theorem to_remove_pairwise : ∀ items : List (String × Bool),
    List.Pairwise (· > ·) (to_remove items)
  | [] => List.Pairwise.nil
  | x :: xs => by
    have ih := to_remove_pairwise xs
    rw [to_remove_cons]
    cases hx : x.2
    · simpa using List.pairwise_map.2 (ih.imp fun h => Nat.succ_lt_succ h)
    · show List.Pairwise (· > ·) ((to_remove xs).map (· + 1) ++ [0])
      apply List.pairwise_append.2
      refine ⟨List.pairwise_map.2 (ih.imp fun h => Nat.succ_lt_succ h), by simp, ?_⟩
      intro a ha b hb
      rcases List.mem_map.1 ha with ⟨i, _, rfl⟩
      simp only [List.mem_singleton] at hb
      subst hb
      exact Nat.succ_pos i

/-- Toggling preserves the number of items. -/
theorem toggle_item_length : ∀ (l : List (String × Bool)) (i : Nat),
    (toggle_item l i).length = l.length
  | [], _ => rfl
  | _ :: _, 0 => rfl
  | x :: xs, i + 1 => by simp [toggle_item, toggle_item_length xs i]

/-- Toggling the same in-range index twice restores the item list. -/
theorem toggle_item_involutive : ∀ (l : List (String × Bool)) (i : Nat), i < l.length →
    toggle_item (toggle_item l i) i = l
  | [], _, h => absurd h (by simp)
  | x :: xs, 0, _ => by simp [toggle_item]
  | x :: xs, i + 1, h => by
    simp only [toggle_item, List.cons.injEq, true_and]
    exact toggle_item_involutive xs i (Nat.lt_of_succ_lt_succ h)

/-! ## Claims -/

/-- Claim C1 (code bug).  The claim says that capturing recipe `"Pasta"` with
ingredients `["Noodles", "Sauce"]` and then triggering the `add Pasta` button
event appends exactly `[("Noodles", false), ("Sauce", false)]` to `items`.
The code's `add` branch reassembles the recipe name from the remaining tokens
with `fold(String::new(), |a, b| format!("{} {}", a, b))`, which prepends a
space, so `handle_new_item` is called with `" Pasta"`, matches no recipe, and
a single item `(" Pasta", false)` is appended instead.  This theorem
evaluates the full round trip from the empty document, and also shows that
the plain-text path (no leading space) does resolve the recipe. -/
theorem c1_add_button_breaks_recipe_roundtrip :
    ((handle_callback_query Data.mkDefault "start_recipe").bind (fun r1 =>
      let d2 := (handle_message r1.1 "Pasta").1
      let d3 := (handle_message d2 "Noodles").1
      let d4 := (handle_message d3 "Sauce").1
      (handle_callback_query d4 "recipe_done").bind (fun r5 =>
        (handle_callback_query r5.1 "add Pasta").map (fun r6 =>
          (r5.1.recipes, r6.1.items))))
      = some ([("Pasta", ["Noodles", "Sauce"])], [(" Pasta", false)]))
    ∧ (handle_message
        { items := [], recipes := [("Pasta", ["Noodles", "Sauce"])],
          active_message := none, current_recipe := none } "Pasta").1.items
      = [("Noodles", false), ("Sauce", false)] :=
  ⟨by decide, by decide⟩

/-- Claim C2, counterexample.  The claim states that a `toggle` event with an
out-of-range index leaves subsequent events unaffected (the process does not
terminate).  In the code, `items.get_mut(i).unwrap()` panics, `run`'s
`.expect` makes the panic fatal, `store_data` is not reached and the callback
event loop terminates: the event step produces no successor state. -/
theorem c2_counterexample_out_of_range_toggle_kills_loop :
    ¬(callback_event_step Data.mkDefault "toggle 0").isSome = true := by decide

/-- Claim C2, amended.  A `toggle` event whose index parses but is out of
range for the current items panics (`unwrap` on `None`): the event is aborted
with no document change and no view update, `store_data` never runs for it,
but — contrary to the claim — the panic terminates the event loop instead of
leaving subsequent events unaffected. -/
theorem c2_amended_out_of_range_toggle_panics (d : Data) (t : String) (i : Nat)
    (h1 : parse_usize t = some i) (h2 : d.items.length ≤ i) :
    handle_callback_tokens d ["toggle", t] = none := by
  simp [handle_callback_tokens, h1, Nat.not_lt.2 h2]

/-- Witness for the amended C2 theorem at a concrete input. -/
theorem c2_amended_out_of_range_toggle_panics_witness :
    parse_usize "5" = some 5 ∧ Data.mkDefault.items.length ≤ 5 ∧
      handle_callback_tokens Data.mkDefault ["toggle", "5"] = none :=
  ⟨by decide, by decide,
    c2_amended_out_of_range_toggle_panics Data.mkDefault "5" 5 (by decide) (by decide)⟩

/-- Claim C3 (code bug).  The claim says any load failure — missing file or
malformed content — logs a warning and keeps the default empty document,
never failing startup.  The code only handles the open failure that way; a
file that opens but fails to parse hits `serde_json::from_str(...).unwrap()`,
which panics and aborts startup.  First conjunct: missing file keeps the
default document.  Second conjunct: malformed content panics (no starting
document is produced). -/
theorem c3_load_malformed_panics :
    load_data none = some Data.mkDefault ∧ load_data (some none) = none := by decide

/-- Claim C4, counterexample.  Capturing a recipe named `"Pasta"` twice from
the empty document yields a reachable state whose recipe list has two entries
named `"Pasta"`: the `recipe_done` branch `push`es the draft instead of
upserting, so recipe names are not unique. -/
theorem c4_counterexample_duplicate_recipe_names :
    ((handle_callback_query Data.mkDefault "start_recipe").bind (fun r1 =>
      let d2 := (handle_message r1.1 "Pasta").1
      let d3 := (handle_message d2 "A").1
      (handle_callback_query d3 "recipe_done").bind (fun r4 =>
        (handle_callback_query r4.1 "start_recipe").bind (fun r5 =>
          let d6 := (handle_message r5.1 "Pasta").1
          let d7 := (handle_message d6 "B").1
          (handle_callback_query d7 "recipe_done").map (fun r8 =>
            r8.1.recipes.map Prod.fst)))))
      = some ["Pasta", "Pasta"]
    ∧ ¬(["Pasta", "Pasta"] : List String).Nodup :=
  ⟨by decide, by decide⟩

/-- Claim C4, amended.  `recipe_done` with a named draft appends the draft as
a new `recipes` entry (duplicate names included) and clears the draft; it
does not replace an existing entry of the same name. -/
theorem c4_amended_recipe_done_appends (d : Data) (name : String)
    (ingredients : List String)
    (h : d.current_recipe = some (some name, ingredients)) :
    handle_callback_tokens d ["recipe_done"] =
      some ({ d with recipes := d.recipes ++ [(name, ingredients)], current_recipe := none },
        some "👍") := by
  simp [handle_callback_tokens, h]

/-- Witness for the amended C4 theorem at a concrete input. -/
theorem c4_amended_recipe_done_appends_witness :
    (⟨[], [("Pasta", ["A"])], none, some (some "Pasta", ["B"])⟩ : Data).current_recipe
      = some (some "Pasta", ["B"]) ∧
    handle_callback_tokens ⟨[], [("Pasta", ["A"])], none, some (some "Pasta", ["B"])⟩
        ["recipe_done"]
      = some (⟨[], [("Pasta", ["A"]), ("Pasta", ["B"])], none, none⟩, some "👍") :=
  ⟨rfl, c4_amended_recipe_done_appends
    ⟨[], [("Pasta", ["A"])], none, some (some "Pasta", ["B"])⟩ "Pasta" ["B"] rfl⟩

/-- Claim C5.  After a `remove_done` button event the surviving items are
exactly those with `checked = false`, in their original relative order
(`List.filter`), and the deletion indices are applied in strictly decreasing
order. -/
theorem c5_remove_done_correct (d : Data) (rest : List String) :
    (handle_callback_tokens d ("remove_done" :: rest)).map (fun r => r.1.items) =
      some (d.items.filter (fun p => !p.2))
    ∧ List.Pairwise (· > ·) (to_remove d.items) := by
  constructor
  · simp [handle_callback_tokens, remove_done_eq_filter]
  · exact to_remove_pairwise d.items

/-- Claim C6.  With an active message set, an edit failing with
`MessageNotModified` is treated as success: the result is `Ok`, the
`active_message` handle is unchanged, and no new message is sent — whatever
the send oracle would have answered. -/
theorem c6_content_unchanged_treated_as_success (chat msg : Int) (send : SendOutcome) :
    replace_active_message (some (chat, msg)) .notModified send =
      .ok ⟨some (chat, msg), false⟩ := rfl

/-- Claim C7.  With an active message set, any edit failure other than
`MessageNotModified` falls through to sending a fresh message: a successful
send returns `Ok` with `active_message` set to the new message's identifier,
a failed send propagates the error, and — across all cases — the operation
fails exactly when the send path is reached and the send fails. -/
theorem c7_edit_failure_falls_through_to_send :
    (∀ (chat msg c2 m2 : Int),
      replace_active_message (some (chat, msg)) .failed (.sent c2 m2) =
        .ok ⟨some (c2, m2), true⟩)
    ∧ (∀ (chat msg : Int),
        replace_active_message (some (chat, msg)) .failed .failed = .error ())
    ∧ (∀ (active : Option (Int × Int)) (edit : EditOutcome) (send : SendOutcome),
        replace_active_message active edit send = .error () ↔
          send = .failed ∧ (active = none ∨ edit = .failed)) := by
  refine ⟨fun _ _ _ _ => rfl, fun _ _ => rfl, ?_⟩
  intro active edit send
  cases active with
  | none => cases send <;> simp [replace_active_message, send_new_message]
  | some p => cases edit <;> cases send <;> simp [replace_active_message, send_new_message]

/-- Claim C8.  Applying the `toggle` button event twice at the same in-range
index returns the document to its original state (the display text shown is
the fixed heading): toggling is an involution on the document. -/
theorem c8_toggle_involution (d : Data) (t : String) (i : Nat)
    (h1 : parse_usize t = some i) (h2 : i < d.items.length) :
    (handle_callback_tokens d ["toggle", t]).bind
      (fun r => handle_callback_tokens r.1 ["toggle", t]) =
      some (d, some "Einkaufsliste:") := by
  have hlen : i < (toggle_item d.items i).length := by rw [toggle_item_length]; exact h2
  simp [handle_callback_tokens, h1, h2, hlen, toggle_item_involutive d.items i h2]

/-- Witness for the C8 theorem at a concrete input. -/
theorem c8_toggle_involution_witness :
    parse_usize "0" = some 0 ∧
    0 < (⟨[("Milk", false)], [], none, none⟩ : Data).items.length ∧
    (handle_callback_tokens ⟨[("Milk", false)], [], none, none⟩ ["toggle", "0"]).bind
      (fun r => handle_callback_tokens r.1 ["toggle", "0"]) =
      some (⟨[("Milk", false)], [], none, none⟩, some "Einkaufsliste:") :=
  ⟨by decide, by decide,
    c8_toggle_involution ⟨[("Milk", false)], [], none, none⟩ "0" 0 (by decide) (by decide)⟩

/-- Claim C9, counterexample.  The claim asserts that a `"#"`-prefixed text
event in Normal state triggers no persistence write.  The document is indeed
unchanged, no view update happens and the inbound message is not deleted, but
the message event loop calls `store_data()` unconditionally after the handler
returns, so a persistence write does occur — the claim's conjunction is false
at input `"#note"` on the empty document. -/
theorem c9_counterexample_comment_still_persisted :
    ¬(handle_message Data.mkDefault "#note" = (Data.mkDefault, none, false)
      ∧ (message_event_step Data.mkDefault "#note").2 = false) := by decide

/-- Claim C9, amended.  A `"#"`-prefixed text event in Normal state adds no
item, leaves the document unchanged, triggers no view update and does not
delete the inbound message — but a persistence write still runs afterwards
(the event loop stores the unchanged document after every message event). -/
theorem c9_amended_comment_noop_but_persisted (d : Data) (text : String)
    (h1 : d.current_recipe = none) (h2 : starts_with_hash text = true) :
    handle_message d text = (d, none, false)
    ∧ (message_event_step d text).2 = true := by
  simp [handle_message, message_event_step, h1, h2]

/-- Witness for the amended C9 theorem at a concrete input. -/
theorem c9_amended_comment_noop_but_persisted_witness :
    Data.mkDefault.current_recipe = none ∧ starts_with_hash "#note" = true ∧
      (handle_message Data.mkDefault "#note" = (Data.mkDefault, none, false)
        ∧ (message_event_step Data.mkDefault "#note").2 = true) :=
  ⟨rfl, by decide, c9_amended_comment_noop_but_persisted Data.mkDefault "#note" rfl (by decide)⟩

/-- Claim C10.  The comment marker is only honored in Normal state: while a
recipe draft is present, a `"#"`-prefixed text is processed like any other
text — it becomes the draft's name when the name is unset, or is appended as
an ingredient when the name is set — and the inbound message is deleted (the
event is not ignored). -/
theorem c10_comment_marker_ignored_in_draft_mode (d : Data) (text : String)
    (name : Option String) (ing : List String)
    (hdraft : d.current_recipe = some (name, ing))
    (hcomment : starts_with_hash text = true) :
    (handle_message d text).1.current_recipe =
      (match name with
       | none => some (some text, ing)
       | some n => some (some n, ing ++ [text]))
    ∧ (handle_message d text).2.2 = true := by
  cases name <;> simp [handle_message, hdraft]

/-- Witness for the C10 theorem at a concrete input. -/
theorem c10_comment_marker_ignored_in_draft_mode_witness :
    (⟨[], [], none, some (none, [])⟩ : Data).current_recipe = some (none, []) ∧
    starts_with_hash "#note" = true ∧
    ((handle_message ⟨[], [], none, some (none, [])⟩ "#note").1.current_recipe
        = some (some "#note", [])
      ∧ (handle_message ⟨[], [], none, some (none, [])⟩ "#note").2.2 = true) :=
  ⟨rfl, by decide,
    c10_comment_marker_ignored_in_draft_mode ⟨[], [], none, some (none, [])⟩ "#note"
      none [] rfl (by decide)⟩
